import Mathlib

/-!
Shallow embedding of the retrying HTTP worker (`worker/handler.go`).

The Go code performs one HTTP GET with bounded linear-backoff retries:

* `isRetryable` classifies an attempt outcome (response pointer, error) as
  retryable (transport error, or a response with status code at or above the
  server-error threshold 500) or terminal;
* `retryableAPICall` loops for `attempt := 0; attempt <= maxRetries; attempt++`,
  sleeping `attempt * defaultRetryDelay` before every attempt after the first,
  returning the first non-retryable outcome, closing the body of every
  discarded retryable response, and on exhaustion returning
  `nil, fmt.Errorf("failed after %d attempts: %w", maxRetries+1, err)`;
* `getData` invokes `retryableAPICall` with `defaultMaxRetries = 3`, closes the
  returned body via `defer`, rejects any status other than 200 with
  "unexpected status code: N", and reads the body, wrapping a read failure as
  "failed to read response body: ...".

The network is modelled by a function `fn : Nat → Outcome` giving the outcome
of the n-th call to the attempt closure.  Side effects (sleeps, calls, body
closes) are recorded in an event trace.
-/

namespace Worker

/-- Go `error` values as produced by this program: a leaf error
(`errors.New` / a transport error / `fmt.Errorf` without `%w`), a
`fmt.Errorf("ctx: %w", inner)` wrapper, or such a wrapper whose `%w`
argument was a nil error. -/
inductive GoError where
  | base (msg : String)
  | wrap (ctx : String) (inner : GoError)
  | wrapNil (ctx : String)
  deriving Repr, DecidableEq

/-- `fmt.Errorf("ctx: %w", e)` where `e` is a possibly-nil error. -/
def GoError.wrapOpt (ctx : String) : Option GoError → GoError
  | some e => .wrap ctx e
  | none => .wrapNil ctx

/-- Rendering of an error message, following Go `fmt`: a `%w` wrapper renders
as `ctx ++ ": " ++ inner`; the `%w` verb applied to a nil error renders as
`%!w(<nil>)`. -/
def errMsg : GoError → String
  | .base m => m
  | .wrap ctx e => ctx ++ ": " ++ errMsg e
  | .wrapNil ctx => ctx ++ ": %!w(<nil>)"

/-- Go `errors.Unwrap`: the error wrapped via the `%w` verb, if any (nil both
for a leaf error and for a wrapper whose wrapped value was nil). -/
def unwrapErr : GoError → Option GoError
  | .base _ => none
  | .wrap _ inner => some inner
  | .wrapNil _ => none

/-- An `*http.Response` as far as this program inspects it: its status code
and its body.  `bodyRead` is what `io.ReadAll(resp.Body)` would return: the
body bytes on success, or the read error. -/
structure Response where
  statusCode : Nat
  bodyRead : Except GoError (List Nat)
  deriving Repr

/-- The outcome of one call of the attempt closure `func() (*http.Response,
error)`: a possibly-nil response pointer and a possibly-nil error. -/
structure Outcome where
  resp : Option Response
  err : Option GoError
  deriving Repr

/-- Observable side effects of a run, in order: a backoff sleep (in
milliseconds), a call of the attempt closure (identified by its 0-based
attempt index), and a `resp.Body.Close()` of the response produced by the
given attempt. -/
inductive Event where
  | sleep (ms : Nat)
  | call (attempt : Nat)
  | closeBody (attempt : Nat)
  deriving Repr, DecidableEq

/-- `defaultMaxRetries = 3` from the `const` block. -/
def defaultMaxRetries : Nat := 3

/-- `defaultRetryDelay = 100 * time.Millisecond`, in milliseconds. -/
def defaultRetryDelayMs : Nat := 100

/-- `serverErrorThreshold = 500` from the `const` block. -/
def serverErrorThreshold : Nat := 500

/-- `(h *DefaultHandler) isRetryable(resp *http.Response, err error) bool`:
a non-nil error is retryable; otherwise a non-nil response with
`StatusCode >= serverErrorThreshold` is retryable; otherwise not. -/
def isRetryable (resp : Option Response) (err : Option GoError) : Bool :=
  match err with
  | some _ => true
  | none =>
    match resp with
    | some r => decide (serverErrorThreshold ≤ r.statusCode)
    | none => false

/-- Result of `retryableAPICall`, instrumented with the event trace and the
index of the last attempt that was fired. -/
structure RetryResult where
  events : List Event
  lastAttempt : Nat
  resp : Option Response
  err : Option GoError
  deriving Repr

/-- The trace of `if attempt > 0 { time.Sleep(time.Duration(attempt) *
defaultRetryDelay) }`: one sleep of `attempt * 100` ms before every attempt
after the first, nothing before attempt 0. -/
def sleepEvs (attempt : Nat) : List Event :=
  if 0 < attempt then [Event.sleep (attempt * defaultRetryDelayMs)] else []

/-- The trace of `if resp != nil { resp.Body.Close() }` on the discard path:
one body close when the attempt produced a non-nil response. -/
def closeEvs (o : Option Response) (attempt : Nat) : List Event :=
  match o with
  | some _ => [Event.closeBody attempt]
  | none => []

/-- The loop body of `retryableAPICall`, entered at a given attempt index.
Mirrors `for attempt := 0; attempt <= maxRetries; attempt++`: sleep
`attempt * defaultRetryDelay` when `attempt > 0`, call `fn`, return on a
non-retryable outcome, close a non-nil discarded response body, and stop
with the aggregated error once the last permitted attempt is reached.
The Go loop tests `attempt == maxRetries`; since `attempt` starts at 0 and
increments by 1, it never exceeds `maxRetries`, so the test is written
`maxRetries ≤ attempt`, which is equivalent on every reachable state. -/
def retryAux (fn : Nat → Outcome) (maxRetries : Nat)
    (isR : Option Response → Option GoError → Bool) (attempt : Nat) :
    RetryResult :=
  let o := fn attempt
  let evs := sleepEvs attempt ++ [Event.call attempt]
  if isR o.resp o.err = false then
    ⟨evs, attempt, o.resp, o.err⟩
  else if maxRetries ≤ attempt then
    ⟨evs ++ closeEvs o.resp attempt, attempt, none,
      some (GoError.wrapOpt
        ("failed after " ++ toString (maxRetries + 1) ++ " attempts") o.err)⟩
  else
    let rest := retryAux fn maxRetries isR (attempt + 1)
    ⟨evs ++ closeEvs o.resp attempt ++ rest.events,
      rest.lastAttempt, rest.resp, rest.err⟩
termination_by maxRetries + 1 - attempt
decreasing_by omega

/-- `retryableAPICall(fn, maxRetries, isRetryable)`: run the loop from
attempt 0. -/
def retryableAPICall (fn : Nat → Outcome) (maxRetries : Nat)
    (isR : Option Response → Option GoError → Bool) : RetryResult :=
  retryAux fn maxRetries isR 0

/-- The result of a `getData` run: the returned `error` value, or a Go
runtime panic (nil pointer dereference), which can only arise if an attempt
yields a nil response together with a nil error. -/
inductive RunOutcome where
  | ret (err : Option GoError)
  | panicked (msg : String)
  deriving Repr, DecidableEq

/-- `(h *DefaultHandler) getData(url string) error`.  Calls
`retryableAPICall` with `defaultMaxRetries` and `isRetryable`; on error wraps
it as "failed to make HTTP request: %w"; otherwise defers
`resp.Body.Close()` (modelled as a close event of the last attempt's
response, emitted when the function returns), rejects a status other than
200, reads the body, and wraps a read failure. -/
def getData (fn : Nat → Outcome) : List Event × RunOutcome :=
  let r := retryableAPICall fn defaultMaxRetries isRetryable
  match r.err with
  | some e =>
      (r.events, .ret (some (GoError.wrap "failed to make HTTP request" e)))
  | none =>
    match r.resp with
    | none =>
        (r.events,
         .panicked "runtime error: invalid memory address or nil pointer dereference")
    | some resp =>
      if resp.statusCode ≠ 200 then
        (r.events ++ [Event.closeBody r.lastAttempt],
         .ret (some (GoError.base
           ("unexpected status code: " ++ toString resp.statusCode))))
      else
        match resp.bodyRead with
        | .error re =>
            (r.events ++ [Event.closeBody r.lastAttempt],
             .ret (some (GoError.wrap "failed to read response body" re)))
        | .ok _ =>
            (r.events ++ [Event.closeBody r.lastAttempt], .ret none)

/-- `(h *DefaultHandler) Handle(url string) error` just calls `getData`. -/
def Handle (fn : Nat → Outcome) : List Event × RunOutcome :=
  getData fn

/-- Whether an event is a call of the attempt closure. -/
def isCallEvent : Event → Bool
  | .call _ => true
  | _ => false

/-- Number of calls of the attempt closure recorded in a trace. -/
def numCalls (evs : List Event) : Nat :=
  (evs.filter isCallEvent).length


/-! ### Helper lemmas about traces -/

lemma numCalls_append (l1 l2 : List Event) :
    numCalls (l1 ++ l2) = numCalls l1 + numCalls l2 := by
  simp [numCalls, List.filter_append]

lemma numCalls_sleepEvs (a : Nat) : numCalls (sleepEvs a) = 0 := by
  unfold sleepEvs; split <;> rfl

lemma numCalls_closeEvs (o : Option Response) (a : Nat) :
    numCalls (closeEvs o a) = 0 := by
  cases o <;> rfl

lemma numCalls_nil : numCalls [] = 0 := rfl

lemma numCalls_callSingleton (a : Nat) : numCalls [Event.call a] = 1 := rfl

lemma numCalls_cons_call (a : Nat) (l : List Event) :
    numCalls (Event.call a :: l) = numCalls l + 1 := by
  simp [numCalls, List.filter, isCallEvent, Nat.add_comm]

lemma numCalls_cons_sleep (m : Nat) (l : List Event) :
    numCalls (Event.sleep m :: l) = numCalls l := by
  simp [numCalls, List.filter, isCallEvent]

lemma numCalls_cons_close (a : Nat) (l : List Event) :
    numCalls (Event.closeBody a :: l) = numCalls l := by
  simp [numCalls, List.filter, isCallEvent]

lemma call_not_mem_sleepEvs (a i : Nat) : Event.call i ∉ sleepEvs a := by
  unfold sleepEvs; split <;> simp

lemma call_not_mem_closeEvs (o : Option Response) (a i : Nat) :
    Event.call i ∉ closeEvs o a := by
  cases o <;> simp [closeEvs]

lemma call_mem_block_iff (a i : Nat) :
    Event.call i ∈ sleepEvs a ++ [Event.call a] ↔ i = a := by
  simp only [List.mem_append, List.mem_singleton]
  constructor
  · rintro (h | h)
    · exact absurd h (call_not_mem_sleepEvs a i)
    · cases h; rfl
  · rintro rfl; simp

lemma close_not_mem_sleepEvs (a i : Nat) : Event.closeBody i ∉ sleepEvs a := by
  unfold sleepEvs; split <;> simp

lemma close_mem_closeEvs_iff (o : Option Response) (a i : Nat) :
    Event.closeBody i ∈ closeEvs o a ↔ (i = a ∧ ∃ r, o = some r) := by
  cases o <;> simp [closeEvs, eq_comm]

/-! ### Branch equations for the retry loop -/

lemma retryAux_eq_return (fn : Nat → Outcome) (mR : Nat)
    (isR : Option Response → Option GoError → Bool) (a : Nat)
    (h : isR (fn a).resp (fn a).err = false) :
    retryAux fn mR isR a =
      ⟨sleepEvs a ++ [Event.call a], a, (fn a).resp, (fn a).err⟩ := by
  rw [retryAux.eq_def]
  simp [h]

lemma retryAux_eq_exhaust (fn : Nat → Outcome) (mR : Nat)
    (isR : Option Response → Option GoError → Bool) (a : Nat)
    (h : isR (fn a).resp (fn a).err = true) (hge : mR ≤ a) :
    retryAux fn mR isR a =
      ⟨sleepEvs a ++ [Event.call a] ++ closeEvs (fn a).resp a, a, none,
        some (GoError.wrapOpt
          ("failed after " ++ toString (mR + 1) ++ " attempts") (fn a).err)⟩ := by
  rw [retryAux.eq_def]
  simp [h, hge]

lemma retryAux_eq_step (fn : Nat → Outcome) (mR : Nat)
    (isR : Option Response → Option GoError → Bool) (a : Nat)
    (h : isR (fn a).resp (fn a).err = true) (hlt : a < mR) :
    retryAux fn mR isR a =
      ⟨sleepEvs a ++ [Event.call a] ++ closeEvs (fn a).resp a ++
          (retryAux fn mR isR (a + 1)).events,
        (retryAux fn mR isR (a + 1)).lastAttempt,
        (retryAux fn mR isR (a + 1)).resp,
        (retryAux fn mR isR (a + 1)).err⟩ := by
  rw [retryAux.eq_def]
  simp [h, Nat.not_le.mpr hlt]

/-! ### The exhaustion path of the retry loop -/

/-- If every attempt from `a` through `maxRetries` is classified retryable,
the loop entered at `a` returns a nil response together with the aggregated
error wrapping the final attempt's error value, having fired the remaining
`maxRetries + 1 - a` attempts. -/
lemma retryAux_exhaust (fn : Nat → Outcome) (mR : Nat)
    (isR : Option Response → Option GoError → Bool) :
    ∀ a, a ≤ mR → (∀ j, a ≤ j → j ≤ mR → isR (fn j).resp (fn j).err = true) →
      (retryAux fn mR isR a).resp = none ∧
      (retryAux fn mR isR a).err =
        some (GoError.wrapOpt ("failed after " ++ toString (mR + 1) ++ " attempts")
          (fn mR).err) ∧
      (retryAux fn mR isR a).lastAttempt = mR ∧
      numCalls (retryAux fn mR isR a).events = mR + 1 - a := by
  intro a
  induction a using retryAux.induct fn mR isR with
  | case1 x o hfalse =>
    intro hx h
    exact absurd (h x le_rfl hx) (by simp [hfalse])
  | case2 x o htrue hge =>
    intro hx h
    have hxe : x = mR := le_antisymm hx hge
    rw [retryAux_eq_exhaust fn mR isR x (h x le_rfl hx) hge]
    subst hxe
    refine ⟨rfl, rfl, rfl, ?_⟩
    simp [numCalls_append, numCalls_sleepEvs, numCalls_closeEvs, numCalls_callSingleton,
      numCalls_cons_call, numCalls_cons_sleep, numCalls_cons_close]
  | case3 x o htrue hlt ih =>
    intro hx h
    have hlt2 : x < mR := by omega
    have ih2 := ih (by omega) (fun j hj1 hj2 => h j (by omega) hj2)
    rw [retryAux_eq_step fn mR isR x (h x le_rfl hx) hlt2]
    refine ⟨ih2.1, ih2.2.1, ih2.2.2.1, ?_⟩
    simp [numCalls_append, numCalls_sleepEvs, numCalls_closeEvs, numCalls_callSingleton,
      numCalls_cons_call, numCalls_cons_sleep, numCalls_cons_close, ih2.2.2.2]
    omega

/-! ### The early-exit path of the retry loop -/

/-- Early exit: if every attempt before `k` is retryable and attempt `k` is
not, the loop entered at any `a ≤ k` returns attempt `k`'s outcome pair
unchanged, fires `k + 1 - a` attempts, and never closes attempt `k`'s
response body. -/
lemma retryAux_terminal (fn : Nat → Outcome) (mR : Nat)
    (isR : Option Response → Option GoError → Bool) (k : Nat)
    (hk : k ≤ mR)
    (hpre : ∀ j, j < k → isR (fn j).resp (fn j).err = true)
    (hterm : isR (fn k).resp (fn k).err = false) :
    ∀ a, a ≤ k →
      (retryAux fn mR isR a).resp = (fn k).resp ∧
      (retryAux fn mR isR a).err = (fn k).err ∧
      (retryAux fn mR isR a).lastAttempt = k ∧
      numCalls (retryAux fn mR isR a).events = k + 1 - a ∧
      Event.closeBody k ∉ (retryAux fn mR isR a).events := by
  intro a
  induction a using retryAux.induct fn mR isR with
  | case1 x o hfalse =>
    intro hx
    have hfalse2 : isR (fn x).resp (fn x).err = false := hfalse
    have hxk : x = k := by
      by_contra hne
      have hlt : x < k := by omega
      rw [hpre x hlt] at hfalse2
      cases hfalse2
    subst hxk
    rw [retryAux_eq_return fn mR isR x hfalse2]
    refine ⟨rfl, rfl, rfl, ?_, ?_⟩
    · simp [numCalls_append, numCalls_sleepEvs, numCalls_callSingleton, numCalls_nil,
        numCalls_cons_call, numCalls_cons_sleep, numCalls_cons_close]
    · simp [close_not_mem_sleepEvs]
  | case2 x o htrue hge =>
    intro hx
    have hxk : x = k := by omega
    subst hxk
    exact absurd hterm htrue
  | case3 x o htrue hlt ih =>
    intro hx
    have htrue2 : isR (fn x).resp (fn x).err = true := by
      have h2 : ¬ isR (fn x).resp (fn x).err = false := htrue
      cases hb : isR (fn x).resp (fn x).err
      · exact absurd hb h2
      · rfl
    have hxk : x ≠ k := by
      intro he
      rw [he, hterm] at htrue2
      cases htrue2
    have ih2 := ih (by omega)
    rw [retryAux_eq_step fn mR isR x htrue2 (by omega)]
    refine ⟨ih2.1, ih2.2.1, ih2.2.2.1, ?_, ?_⟩
    · simp [numCalls_append, numCalls_sleepEvs, numCalls_closeEvs,
        numCalls_cons_call, numCalls_cons_sleep, numCalls_cons_close, ih2.2.2.2.1]
      omega
    · intro hmem
      simp only [List.mem_append] at hmem
      rcases hmem with ((h1 | h2) | h3) | h4
      · exact close_not_mem_sleepEvs x k h1
      · simp at h2
      · rw [close_mem_closeEvs_iff] at h3
        exact hxk h3.1.symm
      · exact ih2.2.2.2.2 h4

lemma bool_eq_true_of_ne_false {b : Bool} (h : ¬ b = false) : b = true := by
  cases b
  · exact absurd rfl h
  · rfl

/-- Every entered loop fires at least one attempt. -/
lemma retryAux_numCalls_ge_one (fn : Nat → Outcome) (mR : Nat)
    (isR : Option Response → Option GoError → Bool) :
    ∀ a, 1 ≤ numCalls (retryAux fn mR isR a).events := by
  intro a
  induction a using retryAux.induct fn mR isR with
  | case1 x o hfalse =>
    rw [retryAux_eq_return fn mR isR x hfalse]
    simp [numCalls_append, numCalls_sleepEvs, numCalls_callSingleton, numCalls_nil,
      numCalls_cons_call, numCalls_cons_sleep, numCalls_cons_close]
  | case2 x o htrue hge =>
    rw [retryAux_eq_exhaust fn mR isR x (bool_eq_true_of_ne_false htrue) hge]
    simp [numCalls_append, numCalls_sleepEvs, numCalls_callSingleton, numCalls_nil,
      numCalls_closeEvs, numCalls_cons_call, numCalls_cons_sleep, numCalls_cons_close]
  | case3 x o htrue hlt ih =>
    rw [retryAux_eq_step fn mR isR x (bool_eq_true_of_ne_false htrue) (by omega)]
    simp [numCalls_append, numCalls_sleepEvs, numCalls_callSingleton, numCalls_nil,
      numCalls_closeEvs, numCalls_cons_call, numCalls_cons_sleep, numCalls_cons_close]

/-- The loop entered at `a ≤ maxRetries` fires at most
`maxRetries + 1 - a` attempts. -/
lemma retryAux_numCalls_le (fn : Nat → Outcome) (mR : Nat)
    (isR : Option Response → Option GoError → Bool) :
    ∀ a, a ≤ mR → numCalls (retryAux fn mR isR a).events ≤ mR + 1 - a := by
  intro a
  induction a using retryAux.induct fn mR isR with
  | case1 x o hfalse =>
    intro hx
    rw [retryAux_eq_return fn mR isR x hfalse]
    simp [numCalls_append, numCalls_sleepEvs, numCalls_callSingleton, numCalls_nil,
      numCalls_cons_call, numCalls_cons_sleep, numCalls_cons_close]
    omega
  | case2 x o htrue hge =>
    intro hx
    rw [retryAux_eq_exhaust fn mR isR x (bool_eq_true_of_ne_false htrue) hge]
    simp [numCalls_append, numCalls_sleepEvs, numCalls_callSingleton, numCalls_nil,
      numCalls_closeEvs, numCalls_cons_call, numCalls_cons_sleep, numCalls_cons_close]
    omega
  | case3 x o htrue hlt ih =>
    intro hx
    have ih2 := ih (by omega)
    rw [retryAux_eq_step fn mR isR x (bool_eq_true_of_ne_false htrue) (by omega)]
    simp [numCalls_append, numCalls_sleepEvs, numCalls_callSingleton, numCalls_nil,
      numCalls_closeEvs, numCalls_cons_call, numCalls_cons_sleep, numCalls_cons_close]
    omega

/-- The very first event of a run started at attempt 0 is the call of
attempt 0: nothing (in particular no sleep) precedes it. -/
lemma retryAux_head (fn : Nat → Outcome) (mR : Nat)
    (isR : Option Response → Option GoError → Bool) :
    (retryAux fn mR isR 0).events.head? = some (Event.call 0) := by
  cases hb : isR (fn 0).resp (fn 0).err with
  | false =>
    rw [retryAux_eq_return fn mR isR 0 hb]
    simp [sleepEvs]
  | true =>
    rcases le_or_lt mR 0 with hge | hlt
    · rw [retryAux_eq_exhaust fn mR isR 0 hb hge]
      simp [sleepEvs]
    · rw [retryAux_eq_step fn mR isR 0 hb hlt]
      simp [sleepEvs]


/-- Linear backoff placement: every fired attempt with index `i ≥ 1` is
immediately preceded in the trace by a sleep of
`i * defaultRetryDelayMs` milliseconds. -/
lemma retryAux_sleep_adjacent (fn : Nat → Outcome) (mR : Nat)
    (isR : Option Response → Option GoError → Bool) :
    ∀ a i, 1 ≤ i → Event.call i ∈ (retryAux fn mR isR a).events →
      ∃ j, (retryAux fn mR isR a).events[j]? =
             some (Event.sleep (i * defaultRetryDelayMs)) ∧
           (retryAux fn mR isR a).events[j + 1]? = some (Event.call i) := by
  intro a
  induction a using retryAux.induct fn mR isR with
  | case1 x o hfalse =>
    intro i hi hmem
    rw [retryAux_eq_return fn mR isR x hfalse] at hmem ⊢
    simp only [RetryResult.events] at hmem ⊢
    have hix : i = x := (call_mem_block_iff x i).mp hmem
    subst hix
    have hs : sleepEvs i = [Event.sleep (i * defaultRetryDelayMs)] := by
      simp [sleepEvs, Nat.lt_of_lt_of_le Nat.zero_lt_one hi]
    refine ⟨0, ?_, ?_⟩ <;> simp [hs]
  | case2 x o htrue hge =>
    intro i hi hmem
    rw [retryAux_eq_exhaust fn mR isR x (bool_eq_true_of_ne_false htrue) hge] at hmem ⊢
    simp only [RetryResult.events] at hmem ⊢
    have hix : i = x := by
      rcases List.mem_append.mp hmem with h1 | h2
      · exact (call_mem_block_iff x i).mp h1
      · exact absurd h2 (call_not_mem_closeEvs _ x i)
    subst hix
    have hs : sleepEvs i = [Event.sleep (i * defaultRetryDelayMs)] := by
      simp [sleepEvs, Nat.lt_of_lt_of_le Nat.zero_lt_one hi]
    refine ⟨0, ?_, ?_⟩ <;> simp [hs]
  | case3 x o htrue hlt ih =>
    intro i hi hmem
    rw [retryAux_eq_step fn mR isR x (bool_eq_true_of_ne_false htrue) (by omega)]
      at hmem ⊢
    simp only [RetryResult.events] at hmem ⊢
    rcases List.mem_append.mp hmem with h12 | h3
    · rcases List.mem_append.mp h12 with h1 | h2
      · have hix : i = x := (call_mem_block_iff x i).mp h1
        subst hix
        have hs : sleepEvs i = [Event.sleep (i * defaultRetryDelayMs)] := by
          simp [sleepEvs, Nat.lt_of_lt_of_le Nat.zero_lt_one hi]
        refine ⟨0, ?_, ?_⟩ <;> simp [hs, List.getElem?_append_left]
      · exact absurd h2 (call_not_mem_closeEvs _ x i)
    · obtain ⟨j, hj1, hj2⟩ := ih i hi h3
      set p := (sleepEvs x ++ [Event.call x] ++ closeEvs (fn x).resp x) with hp
      refine ⟨p.length + j, ?_, ?_⟩
      · rw [List.getElem?_append_right (by omega)]
        simpa using hj1
      · rw [List.getElem?_append_right (by omega)]
        have : p.length + j + 1 - p.length = j + 1 := by omega
        rw [this]
        exact hj2


/-- Body accounting inside the loop: every fired attempt that produced a
non-nil response either had its body closed inside the loop, or its outcome
was non-retryable and is returned unchanged (its body left to the caller). -/
lemma retryAux_close_or_returned (fn : Nat → Outcome) (mR : Nat)
    (isR : Option Response → Option GoError → Bool) :
    ∀ a i r, Event.call i ∈ (retryAux fn mR isR a).events →
      (fn i).resp = some r →
      Event.closeBody i ∈ (retryAux fn mR isR a).events ∨
        (isR (fn i).resp (fn i).err = false ∧
         (retryAux fn mR isR a).resp = (fn i).resp ∧
         (retryAux fn mR isR a).err = (fn i).err ∧
         (retryAux fn mR isR a).lastAttempt = i) := by
  intro a
  induction a using retryAux.induct fn mR isR with
  | case1 x o hfalse =>
    intro i r hmem hr
    rw [retryAux_eq_return fn mR isR x hfalse] at hmem ⊢
    simp only [RetryResult.events] at hmem
    have hix : i = x := (call_mem_block_iff x i).mp hmem
    subst hix
    exact Or.inr ⟨hfalse, rfl, rfl, rfl⟩
  | case2 x o htrue hge =>
    intro i r hmem hr
    rw [retryAux_eq_exhaust fn mR isR x (bool_eq_true_of_ne_false htrue) hge] at hmem ⊢
    simp only [RetryResult.events] at hmem ⊢
    have hix : i = x := by
      rcases List.mem_append.mp hmem with h1 | h2
      · exact (call_mem_block_iff x i).mp h1
      · exact absurd h2 (call_not_mem_closeEvs _ x i)
    subst hix
    left
    apply List.mem_append.mpr
    right
    rw [close_mem_closeEvs_iff]
    exact ⟨rfl, r, hr⟩
  | case3 x o htrue hlt ih =>
    intro i r hmem hr
    rw [retryAux_eq_step fn mR isR x (bool_eq_true_of_ne_false htrue) (by omega)]
      at hmem ⊢
    simp only [RetryResult.events] at hmem ⊢
    rcases List.mem_append.mp hmem with h12 | h3
    · rcases List.mem_append.mp h12 with h1 | h2
      · have hix : i = x := (call_mem_block_iff x i).mp h1
        subst hix
        left
        apply List.mem_append.mpr
        left
        apply List.mem_append.mpr
        right
        rw [close_mem_closeEvs_iff]
        exact ⟨rfl, r, hr⟩
      · exact absurd h2 (call_not_mem_closeEvs _ x i)
    · rcases ih i r h3 hr with hclose | hret
      · left
        exact List.mem_append.mpr (Or.inr hclose)
      · exact Or.inr hret

/-! ### Additional helpers and concrete fixtures -/

lemma unwrapErr_wrapOpt (ctx : String) (o : Option GoError) :
    unwrapErr (GoError.wrapOpt ctx o) = o := by
  cases o <;> rfl

lemma errMsg_wrapOpt (ctx : String) (o : Option GoError) :
    ∃ s, errMsg (GoError.wrapOpt ctx o) = ctx ++ s := by
  cases o with
  | none => exact ⟨": %!w(<nil>)", rfl⟩
  | some e => exact ⟨": " ++ errMsg e, by simp [GoError.wrapOpt, errMsg, String.append_assoc]⟩

/-- A network that always fails with a transport error. -/
def transportFailure : Outcome := ⟨none, some (.base "network error")⟩

/-- A 500 response with an (unread) empty body. -/
def serverErrorResponse : Response := ⟨500, .ok []⟩

/-- A 200 response with a readable three-byte body. -/
def okResponse : Response := ⟨200, .ok [1, 2, 3]⟩

/-- A 404 response with an (unread) empty body. -/
def notFoundResponse : Response := ⟨404, .ok []⟩

/-- A 200 response whose body fails to read. -/
def badReadResponse : Response := ⟨200, .error (.base "read error")⟩

/-- The trace of a `getData` run is the retry loop's trace, followed (unless
the loop itself failed) by the deferred close of the returned body. -/
lemma getData_events_cases (fn : Nat → Outcome) :
    (getData fn).1 = (retryableAPICall fn defaultMaxRetries isRetryable).events ∨
    (getData fn).1 = (retryableAPICall fn defaultMaxRetries isRetryable).events ++
      [Event.closeBody (retryableAPICall fn defaultMaxRetries isRetryable).lastAttempt] := by
  unfold getData
  rcases he : (retryableAPICall fn defaultMaxRetries isRetryable).err with _ | e
  · rcases hre : (retryableAPICall fn defaultMaxRetries isRetryable).resp with _ | resp
    · simp [he, hre]
    · simp only [he, hre]
      split
      · right; rfl
      · split
        · right; rfl
        · right; rfl
  · simp [he]

/-- When the retry loop hands back a response (nil error), `getData` emits
exactly the loop's trace plus the deferred close of the returned body. -/
lemma getData_events_of_ok (fn : Nat → Outcome) (r : Response)
    (he : (retryableAPICall fn defaultMaxRetries isRetryable).err = none)
    (hr : (retryableAPICall fn defaultMaxRetries isRetryable).resp = some r) :
    (getData fn).1 = (retryableAPICall fn defaultMaxRetries isRetryable).events ++
      [Event.closeBody (retryableAPICall fn defaultMaxRetries isRetryable).lastAttempt] := by
  unfold getData
  simp only [he, hr]
  split
  · rfl
  · split
    · rfl
    · rfl

/-! ### Claims -/

/-- C1: if all 4 attempts are retryable, `retryableAPICall` makes exactly 4
calls and returns a non-nil aggregated error stating "failed after 4
attempts" and wrapping the final attempt's error value (which is the nil
error when the final attempt failed via a retryable status code). -/
theorem retryableAPICall_exhaustion (fn : Nat → Outcome)
    (h : ∀ j, j ≤ defaultMaxRetries → isRetryable (fn j).resp (fn j).err = true) :
    numCalls (retryableAPICall fn defaultMaxRetries isRetryable).events = 4 ∧
    (retryableAPICall fn defaultMaxRetries isRetryable).resp = none ∧
    (retryableAPICall fn defaultMaxRetries isRetryable).err =
      some (GoError.wrapOpt "failed after 4 attempts" (fn 3).err) ∧
    unwrapErr (GoError.wrapOpt "failed after 4 attempts" (fn 3).err) = (fn 3).err ∧
    (∃ s, errMsg (GoError.wrapOpt "failed after 4 attempts" (fn 3).err) =
      "failed after 4 attempts" ++ s) := by
  have hx := retryAux_exhaust fn defaultMaxRetries isRetryable 0
    (by simp [defaultMaxRetries]) (fun j h1 h2 => h j h2)
  have hstr : ("failed after " ++ toString (defaultMaxRetries + 1) ++ " attempts") =
      "failed after 4 attempts" := rfl
  rw [hstr] at hx
  refine ⟨?_, hx.1, ?_, unwrapErr_wrapOpt _ _, errMsg_wrapOpt _ _⟩
  · rw [retryableAPICall]
    rw [hx.2.2.2]
    rfl
  · rw [retryableAPICall]
    rw [hx.2.1]
    rfl

/-- C1 witness: a persistent transport failure exhausts all four attempts. -/
theorem retryableAPICall_exhaustion_witness :
    numCalls (retryableAPICall (fun _ => transportFailure) defaultMaxRetries
      isRetryable).events = 4 ∧
    (retryableAPICall (fun _ => transportFailure) defaultMaxRetries isRetryable).resp =
      none ∧
    (retryableAPICall (fun _ => transportFailure) defaultMaxRetries isRetryable).err =
      some (GoError.wrapOpt "failed after 4 attempts" transportFailure.err) ∧
    unwrapErr (GoError.wrapOpt "failed after 4 attempts" transportFailure.err) =
      transportFailure.err ∧
    (∃ s, errMsg (GoError.wrapOpt "failed after 4 attempts" transportFailure.err) =
      "failed after 4 attempts" ++ s) :=
  retryableAPICall_exhaustion (fun _ => transportFailure)
    (fun j hj => by simp [transportFailure, isRetryable])

/-- C2: `isRetryable` returns true exactly when the error is non-nil or the
response is non-nil with a status code at or above 500; every other outcome
(in particular every response with a 2xx-4xx status and no error) is
terminal. -/
theorem isRetryable_spec (resp : Option Response) (err : Option GoError) :
    isRetryable resp err = true ↔
      (err ≠ none ∨ ∃ r, resp = some r ∧ 500 ≤ r.statusCode) := by
  cases err with
  | some e => simp [isRetryable]
  | none =>
    cases resp with
    | none => simp [isRetryable]
    | some r => simp [isRetryable, serverErrorThreshold]

/-- C3: for every network behavior, the controller fires between 1 and 4
attempts and the very first event is the call of attempt 0 (no sleep
precedes it). -/
theorem retryableAPICall_attempt_budget (fn : Nat → Outcome) :
    1 ≤ numCalls (retryableAPICall fn defaultMaxRetries isRetryable).events ∧
    numCalls (retryableAPICall fn defaultMaxRetries isRetryable).events ≤ 4 ∧
    (retryableAPICall fn defaultMaxRetries isRetryable).events.head? =
      some (Event.call 0) := by
  refine ⟨retryAux_numCalls_ge_one fn defaultMaxRetries isRetryable 0, ?_,
    retryAux_head fn defaultMaxRetries isRetryable⟩
  have h := retryAux_numCalls_le fn defaultMaxRetries isRetryable 0
    (by simp [defaultMaxRetries])
  simpa [defaultMaxRetries] using h

/-- C4: no sleep precedes attempt 0, and every fired attempt `i ≥ 1` is
immediately preceded by a sleep of `i * 100` milliseconds (linear backoff:
100, 200, 300 ms before attempts 1, 2, 3). -/
theorem retryableAPICall_linear_backoff (fn : Nat → Outcome) :
    (retryableAPICall fn defaultMaxRetries isRetryable).events.head? =
      some (Event.call 0) ∧
    ∀ i, 1 ≤ i →
      Event.call i ∈ (retryableAPICall fn defaultMaxRetries isRetryable).events →
      ∃ j, (retryableAPICall fn defaultMaxRetries isRetryable).events[j]? =
             some (Event.sleep (i * 100)) ∧
           (retryableAPICall fn defaultMaxRetries isRetryable).events[j + 1]? =
             some (Event.call i) := by
  refine ⟨retryAux_head fn defaultMaxRetries isRetryable, ?_⟩
  intro i hi hmem
  exact retryAux_sleep_adjacent fn defaultMaxRetries isRetryable 0 i hi hmem

/-- C4 witness: with persistent 500 responses, attempt 1 is preceded by a
100 ms sleep. -/
theorem retryableAPICall_linear_backoff_witness :
    ∃ j, (retryableAPICall (fun _ => ⟨some serverErrorResponse, none⟩)
            defaultMaxRetries isRetryable).events[j]? =
           some (Event.sleep (1 * 100)) ∧
         (retryableAPICall (fun _ => ⟨some serverErrorResponse, none⟩)
            defaultMaxRetries isRetryable).events[j + 1]? =
           some (Event.call 1) := by
  refine (retryableAPICall_linear_backoff (fun _ => ⟨some serverErrorResponse, none⟩)).2
    1 le_rfl ?_
  simp [retryableAPICall, retryAux, isRetryable, defaultMaxRetries, sleepEvs, closeEvs,
    serverErrorResponse, serverErrorThreshold]

/-- C5: if attempt 0 yields a 500 response and attempt 1 a 200 response with
a readable body, `getData` returns a nil error after exactly 2 attempts. -/
theorem getData_mixed_500_then_200 (fn : Nat → Outcome) (r0 r1 : Response)
    (bs : List Nat)
    (h0 : fn 0 = ⟨some r0, none⟩) (hs0 : r0.statusCode = 500)
    (h1 : fn 1 = ⟨some r1, none⟩) (hs1 : r1.statusCode = 200)
    (hb : r1.bodyRead = .ok bs) :
    (getData fn).2 = .ret none ∧ numCalls (getData fn).1 = 2 := by
  have hpre : ∀ j, j < 1 → isRetryable (fn j).resp (fn j).err = true := by
    intro j hj
    have hj0 : j = 0 := by omega
    subst hj0
    simp [h0, isRetryable, serverErrorThreshold, hs0]
  have hterm : isRetryable (fn 1).resp (fn 1).err = false := by
    simp [h1, isRetryable, serverErrorThreshold, hs1]
  have ht := retryAux_terminal fn defaultMaxRetries isRetryable 1
    (by simp [defaultMaxRetries]) hpre hterm 0 (by omega)
  have he : (retryableAPICall fn defaultMaxRetries isRetryable).err = none := by
    rw [retryableAPICall, ht.2.1, h1]
  have hre : (retryableAPICall fn defaultMaxRetries isRetryable).resp = some r1 := by
    rw [retryableAPICall, ht.1, h1]
  constructor
  · unfold getData
    simp only [he, hre]
    simp [hs1, hb]
  · rw [getData_events_of_ok fn r1 he hre]
    rw [numCalls_append]
    have hn : numCalls (retryableAPICall fn defaultMaxRetries isRetryable).events = 2 := by
      rw [retryableAPICall, ht.2.2.2.1]
    rw [hn]
    rfl

/-- C5 witness: 500 on attempt 0, then 200 on attempt 1. -/
theorem getData_mixed_500_then_200_witness :
    (getData (fun n => if n = 0 then ⟨some serverErrorResponse, none⟩
        else ⟨some okResponse, none⟩)).2 = .ret none ∧
    numCalls (getData (fun n => if n = 0 then ⟨some serverErrorResponse, none⟩
        else ⟨some okResponse, none⟩)).1 = 2 :=
  getData_mixed_500_then_200
    (fun n => if n = 0 then ⟨some serverErrorResponse, none⟩ else ⟨some okResponse, none⟩)
    serverErrorResponse okResponse [1, 2, 3] rfl rfl rfl rfl rfl

/-- C6: a 200 response with a readable body on attempt 0 makes `getData`
return a nil error after exactly one attempt. -/
theorem getData_success_single_attempt (fn : Nat → Outcome) (r : Response)
    (bs : List Nat)
    (h0 : fn 0 = ⟨some r, none⟩) (hs : r.statusCode = 200)
    (hb : r.bodyRead = .ok bs) :
    (getData fn).2 = .ret none ∧ numCalls (getData fn).1 = 1 := by
  have hterm : isRetryable (fn 0).resp (fn 0).err = false := by
    simp [h0, isRetryable, serverErrorThreshold, hs]
  have ht := retryAux_terminal fn defaultMaxRetries isRetryable 0
    (by simp [defaultMaxRetries]) (fun j hj => absurd hj (Nat.not_lt_zero j)) hterm 0
    le_rfl
  have he : (retryableAPICall fn defaultMaxRetries isRetryable).err = none := by
    rw [retryableAPICall, ht.2.1, h0]
  have hre : (retryableAPICall fn defaultMaxRetries isRetryable).resp = some r := by
    rw [retryableAPICall, ht.1, h0]
  constructor
  · unfold getData
    simp only [he, hre]
    simp [hs, hb]
  · rw [getData_events_of_ok fn r he hre, numCalls_append]
    have hn : numCalls (retryableAPICall fn defaultMaxRetries isRetryable).events = 1 := by
      rw [retryableAPICall, ht.2.2.2.1]
    rw [hn]
    rfl

/-- C6 witness: a concrete 200 response with readable body. -/
theorem getData_success_single_attempt_witness :
    (getData (fun _ => ⟨some okResponse, none⟩)).2 = .ret none ∧
    numCalls (getData (fun _ => ⟨some okResponse, none⟩)).1 = 1 :=
  getData_success_single_attempt (fun _ => ⟨some okResponse, none⟩) okResponse
    [1, 2, 3] rfl rfl rfl

/-- C7: a non-200 sub-500 status on attempt 0 is terminal: one attempt, and
the returned error is exactly "unexpected status code: N" for the literal
status code N. -/
theorem getData_unexpected_status (fn : Nat → Outcome) (r : Response)
    (h0 : fn 0 = ⟨some r, none⟩) (hne : r.statusCode ≠ 200)
    (hlt : r.statusCode < 500) :
    (getData fn).2 =
      .ret (some (GoError.base ("unexpected status code: " ++ toString r.statusCode))) ∧
    numCalls (getData fn).1 = 1 ∧
    errMsg (GoError.base ("unexpected status code: " ++ toString r.statusCode)) =
      "unexpected status code: " ++ toString r.statusCode := by
  have hterm : isRetryable (fn 0).resp (fn 0).err = false := by
    simp [h0, isRetryable, serverErrorThreshold]
    omega
  have ht := retryAux_terminal fn defaultMaxRetries isRetryable 0
    (by simp [defaultMaxRetries]) (fun j hj => absurd hj (Nat.not_lt_zero j)) hterm 0
    le_rfl
  have he : (retryableAPICall fn defaultMaxRetries isRetryable).err = none := by
    rw [retryableAPICall, ht.2.1, h0]
  have hre : (retryableAPICall fn defaultMaxRetries isRetryable).resp = some r := by
    rw [retryableAPICall, ht.1, h0]
  refine ⟨?_, ?_, rfl⟩
  · unfold getData
    simp only [he, hre]
    simp [hne]
  · rw [getData_events_of_ok fn r he hre, numCalls_append]
    have hn : numCalls (retryableAPICall fn defaultMaxRetries isRetryable).events = 1 := by
      rw [retryableAPICall, ht.2.2.2.1]
    rw [hn]
    rfl

/-- C7 witness: a concrete 404 response. -/
theorem getData_unexpected_status_witness :
    (getData (fun _ => ⟨some notFoundResponse, none⟩)).2 =
      .ret (some (GoError.base
        ("unexpected status code: " ++ toString notFoundResponse.statusCode))) ∧
    numCalls (getData (fun _ => ⟨some notFoundResponse, none⟩)).1 = 1 ∧
    errMsg (GoError.base
        ("unexpected status code: " ++ toString notFoundResponse.statusCode)) =
      "unexpected status code: " ++ toString notFoundResponse.statusCode :=
  getData_unexpected_status (fun _ => ⟨some notFoundResponse, none⟩) notFoundResponse
    rfl (by simp [notFoundResponse]) (by simp [notFoundResponse])

/-- C8: a 200 response whose body read fails is terminal after one attempt;
the error wraps the read failure under "failed to read response body". -/
theorem getData_body_read_failure (fn : Nat → Outcome) (r : Response) (re : GoError)
    (h0 : fn 0 = ⟨some r, none⟩) (hs : r.statusCode = 200)
    (hb : r.bodyRead = .error re) :
    (getData fn).2 = .ret (some (GoError.wrap "failed to read response body" re)) ∧
    numCalls (getData fn).1 = 1 ∧
    (∃ s, errMsg (GoError.wrap "failed to read response body" re) =
      "failed to read response body" ++ s) := by
  have hterm : isRetryable (fn 0).resp (fn 0).err = false := by
    simp [h0, isRetryable, serverErrorThreshold, hs]
  have ht := retryAux_terminal fn defaultMaxRetries isRetryable 0
    (by simp [defaultMaxRetries]) (fun j hj => absurd hj (Nat.not_lt_zero j)) hterm 0
    le_rfl
  have he : (retryableAPICall fn defaultMaxRetries isRetryable).err = none := by
    rw [retryableAPICall, ht.2.1, h0]
  have hre : (retryableAPICall fn defaultMaxRetries isRetryable).resp = some r := by
    rw [retryableAPICall, ht.1, h0]
  refine ⟨?_, ?_, ⟨": " ++ errMsg re, by rw [← String.append_assoc]; simp [errMsg]⟩⟩
  · unfold getData
    simp only [he, hre]
    simp [hs, hb]
  · rw [getData_events_of_ok fn r he hre, numCalls_append]
    have hn : numCalls (retryableAPICall fn defaultMaxRetries isRetryable).events = 1 := by
      rw [retryableAPICall, ht.2.2.2.1]
    rw [hn]
    rfl

/-- C8 witness: a concrete failing body read after a 200 status. -/
theorem getData_body_read_failure_witness :
    (getData (fun _ => ⟨some badReadResponse, none⟩)).2 =
      .ret (some (GoError.wrap "failed to read response body" (.base "read error"))) ∧
    numCalls (getData (fun _ => ⟨some badReadResponse, none⟩)).1 = 1 ∧
    (∃ s, errMsg (GoError.wrap "failed to read response body" (.base "read error")) =
      "failed to read response body" ++ s) :=
  getData_body_read_failure (fun _ => ⟨some badReadResponse, none⟩) badReadResponse
    (.base "read error") rfl rfl rfl

/-- C9: in every `getData` run, every attempt that produced a (non-nil)
response has that response's body closed somewhere in the trace — discarded
retryable responses are closed inside the loop, and the returned response is
closed by the deferred close. -/
theorem getData_closes_every_body (fn : Nat → Outcome) (i : Nat) (r : Response)
    (hmem : Event.call i ∈ (getData fn).1) (hr : (fn i).resp = some r) :
    Event.closeBody i ∈ (getData fn).1 := by
  have hmem2 : Event.call i ∈ (retryableAPICall fn defaultMaxRetries isRetryable).events := by
    rcases getData_events_cases fn with hE | hE <;> rw [hE] at hmem
    · exact hmem
    · rcases List.mem_append.mp hmem with h | h
      · exact h
      · simp at h
  have hco := retryAux_close_or_returned fn defaultMaxRetries isRetryable 0 i r hmem2 hr
  rcases hco with hclose | ⟨hterm, hresp, herr, hlast⟩
  · rcases getData_events_cases fn with hE | hE <;> rw [hE]
    · exact hclose
    · exact List.mem_append.mpr (Or.inl hclose)
  · have herrnone : (fn i).err = none := by
      cases he2 : (fn i).err with
      | none => rfl
      | some e =>
        rw [hr, he2] at hterm
        simp [isRetryable] at hterm
    have he : (retryableAPICall fn defaultMaxRetries isRetryable).err = none := by
      rw [retryableAPICall, herr, herrnone]
    have hre : (retryableAPICall fn defaultMaxRetries isRetryable).resp = some r := by
      rw [retryableAPICall, hresp, hr]
    have hla : (retryableAPICall fn defaultMaxRetries isRetryable).lastAttempt = i := by
      rw [retryableAPICall, hlast]
    rw [getData_events_of_ok fn r he hre, hla]
    exact List.mem_append.mpr (Or.inr (by simp))

/-- C9 witness: under persistent 500 responses, attempt 0 was called with a
response and its body appears closed in the trace. -/
theorem getData_closes_every_body_witness :
    Event.closeBody 0 ∈ (getData (fun _ => ⟨some serverErrorResponse, none⟩)).1 := by
  apply getData_closes_every_body (fun _ => ⟨some serverErrorResponse, none⟩) 0
    serverErrorResponse ?_ rfl
  simp [getData, retryableAPICall, retryAux, isRetryable, defaultMaxRetries, sleepEvs,
    closeEvs, serverErrorResponse, serverErrorThreshold]

/-- C10: on exhaustion the controller returns a nil response and a non-nil
error; on a terminal outcome it returns exactly the final attempt's pair,
does not close that response's body, and any returned response has a
non-retryable (< 500) status. -/
theorem retryableAPICall_final_outcome (fn : Nat → Outcome) :
    ((∀ j, j ≤ defaultMaxRetries → isRetryable (fn j).resp (fn j).err = true) →
      (retryableAPICall fn defaultMaxRetries isRetryable).resp = none ∧
      (retryableAPICall fn defaultMaxRetries isRetryable).err ≠ none) ∧
    (∀ k, k ≤ defaultMaxRetries →
      (∀ j, j < k → isRetryable (fn j).resp (fn j).err = true) →
      isRetryable (fn k).resp (fn k).err = false →
      (retryableAPICall fn defaultMaxRetries isRetryable).resp = (fn k).resp ∧
      (retryableAPICall fn defaultMaxRetries isRetryable).err = (fn k).err ∧
      Event.closeBody k ∉ (retryableAPICall fn defaultMaxRetries isRetryable).events ∧
      (∀ r, (fn k).resp = some r → r.statusCode < 500)) := by
  constructor
  · intro h
    have hx := retryAux_exhaust fn defaultMaxRetries isRetryable 0
      (by simp [defaultMaxRetries]) (fun j h1 h2 => h j h2)
    refine ⟨hx.1, ?_⟩
    rw [retryableAPICall, hx.2.1]
    simp
  · intro k hk hpre hterm
    have ht := retryAux_terminal fn defaultMaxRetries isRetryable k hk hpre hterm 0
      (by omega)
    refine ⟨ht.1, ht.2.1, ht.2.2.2.2, ?_⟩
    intro r hr
    rw [hr] at hterm
    cases he : (fn k).err with
    | some e =>
      rw [he] at hterm
      simp [isRetryable] at hterm
    | none =>
      rw [he] at hterm
      simp [isRetryable, serverErrorThreshold] at hterm
      omega

/-- C10 witness: exhaustion under transport failures returns nil response and
non-nil error; a terminal 404 on attempt 0 is returned as-is with its body
left open. -/
theorem retryableAPICall_final_outcome_witness :
    ((retryableAPICall (fun _ => transportFailure) defaultMaxRetries isRetryable).resp =
        none ∧
     (retryableAPICall (fun _ => transportFailure) defaultMaxRetries isRetryable).err ≠
        none) ∧
    ((retryableAPICall (fun _ => ⟨some notFoundResponse, none⟩) defaultMaxRetries
        isRetryable).resp = some notFoundResponse ∧
     (retryableAPICall (fun _ => ⟨some notFoundResponse, none⟩) defaultMaxRetries
        isRetryable).err = none ∧
     Event.closeBody 0 ∉ (retryableAPICall (fun _ => ⟨some notFoundResponse, none⟩)
        defaultMaxRetries isRetryable).events ∧
     notFoundResponse.statusCode < 500) := by
  constructor
  · exact (retryableAPICall_final_outcome (fun _ => transportFailure)).1
      (fun j hj => by simp [transportFailure, isRetryable])
  · have h := (retryableAPICall_final_outcome (fun _ => ⟨some notFoundResponse, none⟩)).2
      0 (by simp [defaultMaxRetries]) (fun j hj => absurd hj (Nat.not_lt_zero j))
      (by simp [isRetryable, notFoundResponse, serverErrorThreshold])
    exact ⟨h.1, h.2.1, h.2.2.1, h.2.2.2 notFoundResponse rfl⟩

end Worker
